import Mathlib

/-!
Verification of the b402 client SDK (Python sources: `b402/wallet.py`,
`b402/approval.py`, `b402/client.py`, `b402/types.py`) against its
natural-language specification.

The Python code is shallowly embedded: pure computations become Lean
functions on `Nat`/`Int`/`Rat`/`String`; every external interaction
(environment variable, chain read, approval transaction, HTTP exchange)
is an explicit input bundled in an `Env` record, with `Except.error`
modelling a raised Python exception.  Python `float` arithmetic
(`client.py:78` does `int(float(amount) * 10**18)`) is modelled exactly by
IEEE-754 binary64 round-to-nearest-even over exact non-negative rationals
(`PRat` pairs), valid on the normal (non-subnormal, non-overflowing) range,
which covers every amount considered here.  All quantities in the source
that reach this arithmetic are non-negative.
-/

set_option maxRecDepth 100000

/-! ### Exact non-negative rationals and the IEEE-754 binary64 model -/

/-- An exact non-negative rational `num / den` (`den ≠ 0` by construction at
every use; fractions are not reduced — all operations below are exact, so
reduction is unnecessary). -/
structure PRat where
  num : Nat
  den : Nat
deriving DecidableEq

def pmul (a b : PRat) : PRat := ⟨a.num * b.num, a.den * b.den⟩

def pdiv (a b : PRat) : PRat := ⟨a.num * b.den, a.den * b.num⟩

/-- `a ≤ b` as exact cross-multiplication. -/
def pleB (a b : PRat) : Bool := Nat.ble (a.num * b.den) (b.num * a.den)

/-- `a = b` as rationals (cross-multiplication). -/
def ratEqB (a b : PRat) : Bool := Nat.beq (a.num * b.den) (b.num * a.den)

def floorP (a : PRat) : Nat := a.num / a.den

/-- Round a non-negative rational to the nearest integer, ties to even
(the IEEE default rounding used by Python floats and string formatting). -/
def roundHalfEvenP (a : PRat) : Nat :=
  let n := a.num / a.den
  let r := a.num % a.den
  if 2 * r < a.den then n
  else if a.den < 2 * r then n + 1
  else if n % 2 = 0 then n else n + 1

/-- Fuel-driven floor of `log2`; `natLog2Aux n n` is `⌊log2 n⌋` for `n ≥ 1`. -/
def natLog2Aux : Nat → Nat → Nat
  | 0, _ => 0
  | Nat.succ fuel, n => if 2 ≤ n then natLog2Aux fuel (n / 2) + 1 else 0

/-- `⌊log2 n⌋` for `n ≥ 1` (returns 0 at 0). -/
def natLog2 (n : Nat) : Nat := natLog2Aux n n

/-- `2^e` as an exact rational, for a possibly negative exponent. -/
def pow2P (e : Int) : PRat := if 0 ≤ e then ⟨2 ^ e.toNat, 1⟩ else ⟨1, 2 ^ (-e).toNat⟩

/-- The binade exponent `e` with `2^e ≤ a < 2^(e+1)`, for `a > 0`:
the log2-difference estimate is off by at most one, and is corrected by an
exact comparison. -/
def findExpP (a : PRat) : Int :=
  let e0 : Int := (natLog2 a.num : Int) - (natLog2 a.den : Int)
  if pleB (pow2P e0) a then e0 else e0 - 1

/-- Round a positive rational to the nearest binary64 value (ties to even):
scale by the unit in the last place of its binade, round to an integer
significand, scale back.  Valid on the normal range. -/
def roundPosDoubleP (a : PRat) : PRat :=
  let ulp := pow2P (findExpP a - 52)
  pmul ⟨roundHalfEvenP (pdiv a ulp), 1⟩ ulp

/-- Round a non-negative rational to the nearest binary64 value. -/
def roundDoubleP (a : PRat) : PRat := if a.num = 0 then ⟨0, 1⟩ else roundPosDoubleP a

/-! ### Python decimal-literal parsing and float conversion -/

def digitVal (c : Char) : Nat := c.toNat - 48

def digitsToNat (l : List Char) : Nat := l.foldl (fun n c => 10 * n + digitVal c) 0

/-- Split a character list at the first dot, if any. -/
def splitOnDotAux : List Char → List Char → List Char × Option (List Char)
  | [], acc => (acc.reverse, none)
  | c :: rest, acc => if c = '.' then (acc.reverse, some rest) else splitOnDotAux rest (c :: acc)

/-- Exact rational value of a plain non-negative decimal literal
(`"12"`, `"0.01"`, `"1."`, `".5"`), `none` when malformed — the shapes of
Python `float(...)` inputs relevant to payment amounts. -/
def parseDec (s : String) : Option PRat :=
  match splitOnDotAux s.toList [] with
  | (ip, none) =>
      if ip ≠ [] ∧ ip.all Char.isDigit then some ⟨digitsToNat ip, 1⟩ else none
  | (ip, some fp) =>
      if (ip.all Char.isDigit ∧ fp.all Char.isDigit) ∧ ip ++ fp ≠ [] then
        some ⟨digitsToNat ip * 10 ^ fp.length + digitsToNat fp, 10 ^ fp.length⟩
      else none

/-- Python `float(s)`: the correctly-rounded binary64 value of the decimal. -/
def pyFloat (s : String) : Option PRat := (parseDec s).map roundDoubleP

/-- `int(float_value * 10**18)` for the parsed (exact) decimal `q`:
the decimal is rounded to a double, multiplied by the exactly-representable
double `10^18` with the product rounded again, then truncated
(`client.py:78`).  Non-negative inputs, so truncation is floor. -/
def pyWeiOfRat (q : PRat) : Nat := floorP (roundDoubleP (pmul (roundDoubleP q) ⟨10 ^ 18, 1⟩))

/-- `int(float(amount) * 10**18)` — the whole conversion from `client.py:78`. -/
def pyAmountWei (s : String) : Option Nat := (parseDec s).map pyWeiOfRat

/-- Python `n / 10**18` (true division of ints): correctly-rounded double. -/
def pyTrueDiv (n : Nat) : PRat := roundDoubleP ⟨n, 10 ^ 18⟩

/-- Python `format(d, ".4f")` for a non-negative double `d`: fixed-point with
four fractional digits, correctly rounded with ties to even. -/
def pyFmt4 (a : PRat) : String :=
  let n := roundHalfEvenP (pmul a ⟨10000, 1⟩)
  let fs := Nat.repr (n % 10000)
  Nat.repr (n / 10000) ++ "." ++ String.mk (List.replicate (4 - fs.length) '0') ++ fs

/-- A single-quote character as a string (used inside error messages). -/
def sglq : String := String.singleton (Char.ofNat 39)

/-- Python `int(s)` for a string of decimal digits (the only shape produced
by `str(amount_wei)` inside the client). -/
def pyIntNat (s : String) : Nat := digitsToNat s.toList

/-- Python truthiness of `os.environ.get("PRIVATE_KEY")`:
`None` and the empty string are both falsy (`client.py:52`). -/
def pyFalsy : Option String → Bool
  | none => true
  | some s => s.isEmpty

/-! ### `types.py` -/

/-- `PaymentResult` dataclass (`types.py:4-12`). -/
structure PaymentResult where
  success : Bool
  tx_hash : Option String
  error : Option String
  payer : String
  recipient : String
  amount : String
  token : String
deriving DecidableEq

/-! ### Static configuration (`client.py:9-23`) -/

inductive NetworkT where
  | mainnet
  | testnet
deriving DecidableEq

def networkStr : NetworkT → String
  | NetworkT.mainnet => "mainnet"
  | NetworkT.testnet => "testnet"

/-- `B402.TOKENS[network].get(token)` (`client.py:9-18`, `client.py:66`). -/
def TOKENS (n : NetworkT) (token : String) : Option String :=
  match n with
  | NetworkT.mainnet =>
      if token = "USD1" then some "0x8d0d000ee44948fc98c9b98a4fa4921476f08b0d"
      else if token = "USDT" then some "0x55d398326f99059fF775485246999027B3197955"
      else if token = "USDC" then some "0x8AC76a51cc950d9822D68b83fE1Ad97B32Cd580d"
      else none
  | NetworkT.testnet =>
      if token = "USDT" then some "0x337610d27c682E347C9cD60BD4b3b107C9d34dDd" else none

/-- `B402.RELAYERS[network]` (`client.py:20-23`). -/
def RELAYERS : NetworkT → String
  | NetworkT.mainnet => "0xE1C2830d5DDd6B49E9c46EbE03a98Cb44CD8eA5a"
  | NetworkT.testnet => "0x62150F2c3A29fDA8bCf22c0F22Eb17270FCBb78A"

/-! ### `wallet.py` — `process_payment` -/

/-- The `requirements` dict built by `B402.pay` (`client.py:134-142`). -/
structure PaymentRequirements where
  scheme : String
  asset : String
  payTo : String
  maxAmountRequired : String
  maxTimeoutSeconds : Nat
  network : String
  relayerContract : String
deriving DecidableEq

/-- The `authorization` dict of `process_payment` (`wallet.py:16-23`):
`value = int(requirements["maxAmountRequired"])`, `validAfter = 0`,
`validBefore = now + requirements["maxTimeoutSeconds"]`.  The 32-byte nonce
is carried as its 64-char hex rendering. -/
structure Authorization where
  fromAddr : String
  toAddr : String
  value : Nat
  validAfter : Nat
  validBefore : Nat
  nonceHex : String
deriving DecidableEq

def process_payment_auth (req : PaymentRequirements) (senderAddr : String) (now : Nat)
    (nonceHex : String) : Authorization :=
  { fromAddr := senderAddr
    toAddr := req.payTo
    value := pyIntNat req.maxAmountRequired
    validAfter := 0
    validBefore := now + req.maxTimeoutSeconds
    nonceHex := nonceHex }

/-- The payload dict returned by `process_payment` (`wallet.py:51-67`):
authorization fields serialized as decimal strings, nonce 0x-prefixed. -/
structure PaymentPayload where
  x402Version : Nat
  scheme : String
  network : String
  token : String
  authFrom : String
  authTo : String
  authValue : String
  authValidAfter : String
  authValidBefore : String
  nonce : String
  signature : String
deriving DecidableEq

/-- `process_payment` (`wallet.py:7-67`): the internal typed authorization
struct together with the serialized payload.  Wall-clock `now`, the random
nonce and the EIP-712 signature are oracle inputs. -/
def process_payment (req : PaymentRequirements) (senderAddr : String) (now : Nat)
    (nonceHex sig : String) : Authorization × PaymentPayload :=
  let a := process_payment_auth req senderAddr now nonceHex
  (a,
   { x402Version := 1
     scheme := "exact"
     network := req.network
     token := req.asset
     authFrom := a.fromAddr
     authTo := a.toAddr
     authValue := Nat.repr a.value
     authValidAfter := Nat.repr a.validAfter
     authValidBefore := Nat.repr a.validBefore
     nonce := "0x" ++ nonceHex
     signature := sig })

/-! ### `approval.py` -/

/-- `check_approval` (`approval.py:36-69`): given the live on-chain
allowance, returns `(allowance >= min_amount, allowance)`; `min_amount`
defaults to 0 at both call sites that omit it. -/
def check_approval (allowance : Nat) (min_amount : Nat) : Bool × Nat :=
  (decide (min_amount ≤ allowance), allowance)

/-- The effective amount of `approve_token` (`approval.py:100-103`):
`None` defaults to `10_000 * 10**18`. -/
def approve_token_amount (amount : Option Nat) : Nat := amount.getD (10000 * 10 ^ 18)

/-- The dict returned by `ensure_approval` (`approval.py:145-151`). -/
structure ApprovalStatus where
  approved : Bool
  allowance : Nat
  tx_hash : Option String
deriving DecidableEq

/-- `ensure_approval` (`approval.py:128-185`).  The chain read and the
approval transaction are oracle inputs; `Except.error` models a raised
exception propagating out of the call. -/
def ensure_approval (allowanceRead : Except String Nat) (approveTx : Except String String)
    (auto_approve : Bool) : Except String ApprovalStatus :=
  match allowanceRead with
  | Except.error e => Except.error e
  | Except.ok allowance =>
    let c := check_approval allowance 0
    if c.1 then Except.ok { approved := true, allowance := c.2, tx_hash := none }
    else if auto_approve = false then
      Except.ok { approved := false, allowance := 0, tx_hash := none }
    else
      match approveTx with
      | Except.error e => Except.error e
      | Except.ok tx => Except.ok { approved := true, allowance := 2 ^ 256 - 1, tx_hash := some tx }

/-! ### `client.py` — the `B402` orchestrator -/

/-- The JSON body of a facilitator `/verify` response (`client.py:165-173`):
`isValid` is the truthiness of `.get("isValid")`, `invalidReason` the
optional reason, `render` the Python string rendering of the whole dict. -/
structure VerifyData where
  isValid : Bool
  invalidReason : Option String
  render : String
deriving DecidableEq

/-- The JSON body of a facilitator `/settle` response (`client.py:198-209`):
`success` is the truthiness of `.get("success", False)`, `nonempty` the
truthiness of the dict itself, `render` its string rendering. -/
structure SettleData where
  success : Bool
  transaction : Option String
  errorReason : Option String
  nonempty : Bool
  render : String
deriving DecidableEq

/-- An HTTP response from `requests.post`: status code, `.text`, and the
result of `.json()` (`Except.error` models a raised decode exception). -/
structure HttpResp (α : Type) where
  status : Nat
  text : String
  body : Except String α

/-- All external interactions of one `B402.pay` run, as oracle inputs.
`Except.error e` models the corresponding Python call raising an exception
whose `str` is `e`; for the two HTTP posts it models a network error. -/
structure Env where
  privateKey : Option String
  accountAddress : Except String String
  allowanceRead : Except String Nat
  approveTx : Except String String
  now : Nat
  nonceHex : String
  signature : String
  verify : Except String (HttpResp VerifyData)
  settle : Except String (HttpResp SettleData)

/-- Facilitator calls issued by one `pay` run, in order, with the verify
outcome observed (valid / invalid / transport-level failure). -/
inductive VOut where
  | valid
  | invalid
  | transport
deriving DecidableEq

inductive Ev where
  | verifyCall (out : VOut)
  | settleCall
deriving DecidableEq

/-- On-chain state mutations issued by one `pay` run. -/
inductive ChainAction where
  | approve (amountWei : Nat)
deriving DecidableEq

/-- Everything observable about one `B402.pay` run: the returned
`PaymentResult`, the signed authorization (when signing was reached), the
facilitator calls in order, and the on-chain mutations. -/
structure PayOutcome where
  result : PaymentResult
  auth : Option Authorization
  events : List Ev
  actions : List ChainAction
deriving DecidableEq

def noKeyMsg : String := "PRIVATE_KEY environment variable not set"

def unsupportedMsg (token : String) (network : NetworkT) : String :=
  "Token " ++ token ++ " not supported on " ++ networkStr network

/-- `client.py:92-96`: the insufficient-allowance message, with both amounts
rendered as Python does (`{x:.4f}` of the true-division double). -/
def insufficientMsg (allowance amountWei : Nat) (token : String) : String :=
  "Insufficient allowance. Have: " ++ pyFmt4 (pyTrueDiv allowance) ++ " " ++ token ++
  ", Need: " ++ pyFmt4 (pyTrueDiv amountWei) ++ " " ++ token ++
  ". Run: b402.setup(" ++ sglq ++ token ++ sglq ++ ") or pay(..., auto_approve=True)"

def autoApproveFailedMsg (e token : String) : String :=
  "Auto-approval failed: " ++ e ++ ". Please run: b402.setup(" ++ sglq ++ token ++ sglq ++ ")"

/-- The CPython `str(e)` message for `float(amount)` failing (`client.py:78` inside the
`try` of `client.py:62`). -/
def floatErrMsg (amount : String) : String :=
  "could not convert string to float: " ++ sglq ++ amount ++ sglq

def verifyHttpMsg (status : Nat) (text : String) : String :=
  "Verify request failed: HTTP " ++ Nat.repr status ++ " - " ++ text

def settleHttpMsg (status : Nat) (text : String) : String :=
  "Settle request failed: HTTP " ++ Nat.repr status ++ " - " ++ text

def verifyInvalidMsg (vd : VerifyData) : String :=
  vd.invalidReason.getD "Invalid signature" ++ " | Response: " ++ vd.render

def settleErrMsg (sd : SettleData) : String :=
  sd.errorReason.getD "Unknown error" ++ (if sd.nonempty then " | Response: " ++ sd.render else "")

/-- A failure-shaped `PaymentResult` (every early return of `pay`). -/
def failResult (err : Option String) (payer recipient amount token : String) : PaymentResult :=
  { success := false, tx_hash := none, error := err
    payer := payer, recipient := recipient, amount := amount, token := token }

/-- `B402.pay` from the requirements build onward (`client.py:133-215`):
signing, the `/verify` post, and — only on a valid verify — the `/settle`
post.  `acts` carries the approval (if any) already performed. -/
def payAfterApproval (env : Env) (amount token recipient tokenAddress : String)
    (network : NetworkT) (timeoutSeconds amountWei : Nat) (addr : String)
    (acts : List ChainAction) : PayOutcome :=
  let req : PaymentRequirements :=
    { scheme := "exact", asset := tokenAddress, payTo := recipient
      maxAmountRequired := Nat.repr amountWei, maxTimeoutSeconds := timeoutSeconds
      network := if network = NetworkT.mainnet then "bsc" else "bsc-testnet"
      relayerContract := RELAYERS network }
  let ap := process_payment req addr env.now env.nonceHex env.signature
  match env.verify with
  | Except.error e =>
      { result := failResult (some e) "" recipient amount token, auth := some ap.1
        events := [Ev.verifyCall VOut.transport], actions := acts }
  | Except.ok vr =>
    if vr.status ≠ 200 then
      { result := failResult (some (verifyHttpMsg vr.status vr.text)) addr recipient amount token
        auth := some ap.1, events := [Ev.verifyCall VOut.transport], actions := acts }
    else
      match vr.body with
      | Except.error e =>
          { result := failResult (some e) "" recipient amount token, auth := some ap.1
            events := [Ev.verifyCall VOut.transport], actions := acts }
      | Except.ok vd =>
        if vd.isValid = false then
          { result := failResult (some (verifyInvalidMsg vd)) addr recipient amount token
            auth := some ap.1, events := [Ev.verifyCall VOut.invalid], actions := acts }
        else
          match env.settle with
          | Except.error e =>
              { result := failResult (some e) "" recipient amount token, auth := some ap.1
                events := [Ev.verifyCall VOut.valid, Ev.settleCall], actions := acts }
          | Except.ok sr =>
            if sr.status ≠ 200 then
              { result := failResult (some (settleHttpMsg sr.status sr.text)) addr recipient amount token
                auth := some ap.1, events := [Ev.verifyCall VOut.valid, Ev.settleCall], actions := acts }
            else
              match sr.body with
              | Except.error e =>
                  { result := failResult (some e) "" recipient amount token, auth := some ap.1
                    events := [Ev.verifyCall VOut.valid, Ev.settleCall], actions := acts }
              | Except.ok sd =>
                  { result :=
                      { success := sd.success, tx_hash := sd.transaction
                        error := if sd.success then none else some (settleErrMsg sd)
                        payer := addr, recipient := recipient, amount := amount, token := token }
                    auth := some ap.1
                    events := [Ev.verifyCall VOut.valid, Ev.settleCall], actions := acts }

/-- `B402.pay` (`client.py:30-225`).  Exception paths caught by the outer
`except` (`client.py:217-225`) return `payer := ""` exactly as the source
does; pre-`try` and in-`try` early returns carry the fields the source sets. -/
def B402.pay (env : Env) (amount token recipient : String) (network : NetworkT)
    (timeoutSeconds : Nat) (autoApprove : Bool) : PayOutcome :=
  if pyFalsy env.privateKey then
    { result := failResult (some noKeyMsg) "" recipient amount token
      auth := none, events := [], actions := [] }
  else
    match env.accountAddress with
    | Except.error e =>
        { result := failResult (some e) "" recipient amount token
          auth := none, events := [], actions := [] }
    | Except.ok addr =>
      match TOKENS network token with
      | none =>
          { result := failResult (some (unsupportedMsg token network)) addr recipient amount token
            auth := none, events := [], actions := [] }
      | some tokenAddress =>
        match parseDec amount with
        | none =>
            { result := failResult (some (floatErrMsg amount)) "" recipient amount token
              auth := none, events := [], actions := [] }
        | some q =>
          let amountWei := pyWeiOfRat q
          match env.allowanceRead with
          | Except.error e =>
              { result := failResult (some e) "" recipient amount token
                auth := none, events := [], actions := [] }
          | Except.ok allowance =>
            if amountWei ≤ allowance then
              payAfterApproval env amount token recipient tokenAddress network
                timeoutSeconds amountWei addr []
            else if autoApprove = false then
              { result := failResult (some (insufficientMsg allowance amountWei token))
                  addr recipient amount token
                auth := none, events := [], actions := [] }
            else
              match env.approveTx with
              | Except.error e =>
                  { result := failResult (some (autoApproveFailedMsg e token)) addr recipient amount token
                    auth := none, events := [], actions := [] }
              | Except.ok _ =>
                  payAfterApproval env amount token recipient tokenAddress network
                    timeoutSeconds amountWei addr
                    [ChainAction.approve (max amountWei (10000 * 10 ^ 18))]

/-- Alias for the module-level `check_approval` of `approval.py`, used below where
the method name `B402.check_approval` would shadow it. -/
def approvalCheck (allowance min_amount : Nat) : Bool × Nat := check_approval allowance min_amount

/-- `B402.check_approval` (`client.py:233-258`): raises `ValueError`
(modelled as `Except.error`) on a missing credential or unsupported token;
otherwise calls `check_approval` with no minimum amount. -/
def B402.check_approval (pk : Option String) (network : NetworkT) (token : String)
    (allowanceRead : Except String Nat) : Except String (Bool × Nat) :=
  if pyFalsy pk then Except.error noKeyMsg
  else
    match TOKENS network token with
    | none => Except.error (unsupportedMsg token network)
    | some _ =>
      match allowanceRead with
      | Except.error e => Except.error e
      | Except.ok allowance => Except.ok (approvalCheck allowance 0)

/-- `B402.setup` (`client.py:260-296`): raises `ValueError` on a missing
credential or unsupported token; otherwise delegates to `ensure_approval`. -/
def B402.setup (pk : Option String) (network : NetworkT) (token : String)
    (allowanceRead : Except String Nat) (approveTx : Except String String)
    (auto_approve : Bool) : Except String ApprovalStatus :=
  if pyFalsy pk then Except.error noKeyMsg
  else
    match TOKENS network token with
    | none => Except.error (unsupportedMsg token network)
    | some _ => ensure_approval allowanceRead approveTx auto_approve

/-! ### Concrete environments used by witnesses and counterexamples -/

/-- A happy-path environment: key set, large allowance, valid verify, and a
successful settle reporting transaction `0xsettle`. -/
def baseEnv : Env :=
  { privateKey := some "0xkey"
    accountAddress := Except.ok "0xME"
    allowanceRead := Except.ok (10 ^ 22)
    approveTx := Except.ok "0xapproval"
    now := 1700000000
    nonceHex := "ab"
    signature := "0xsig"
    verify := Except.ok
      ({ status := 200, text := "", body := Except.ok
          ({ isValid := true, invalidReason := none, render := "verify-json" }) })
    settle := Except.ok
      ({ status := 200, text := "", body := Except.ok
          ({ success := true, transaction := some "0xsettle", errorReason := none
             nonempty := true, render := "settle-json" }) }) }

/-- `baseEnv` with zero allowance (forces the approval branch). -/
def envZeroAllowance : Env := { baseEnv with allowanceRead := Except.ok 0 }

/-- `baseEnv` whose settle call fails at the transport level (HTTP 503). -/
def envSettle503 : Env :=
  { baseEnv with
    settle := Except.ok ({ status := 503, text := "gateway timeout", body := Except.error "json decode" }) }

/-- A settle response body reporting success but carrying no transaction id. -/
def settleNoTxData : SettleData :=
  { success := true, transaction := none, errorReason := none
    nonempty := true, render := "settle-json" }

/-- `baseEnv` whose settle response reports success without a transaction id. -/
def envSettleNoTx : Env :=
  { baseEnv with
    settle := Except.ok ({ status := 200, text := "", body := Except.ok settleNoTxData }) }

/-- `baseEnv` with the PRIVATE_KEY environment variable unset. -/
def envNoKey : Env := { baseEnv with privateKey := none }

/-- A concrete `PaymentRequirements` value used in closed instances. -/
def reqEx : PaymentRequirements :=
  { scheme := "exact", asset := "0xA", payTo := "0xB", maxAmountRequired := "1000"
    maxTimeoutSeconds := 5, network := "bsc", relayerContract := "0xC" }

/-- The inputs under which `B402.pay` is on a failure path: the credential is
missing, the key is malformed, the token is unconfigured, the amount string is
malformed, or a collaborator (chain read, verify post, settle post) raises. -/
def failureInput (env : Env) (network : NetworkT) (token amount : String) : Prop :=
  pyFalsy env.privateKey = true ∨
  (∃ e, env.accountAddress = Except.error e) ∨
  TOKENS network token = none ∨
  parseDec amount = none ∨
  (∃ e, env.allowanceRead = Except.error e) ∨
  (∃ e, env.verify = Except.error e) ∨
  (∃ e, env.settle = Except.error e)

/-! ### Claims -/

/-- C1 counterexample: with issuance time 1000 and requested timeout 5, the
authorization built by `process_payment` has
`validBefore - validAfter = 1005`, not the requested timeout 5. -/
theorem c1_counterexample :
    ¬ ((process_payment_auth reqEx "0xD" 1000 "ff").validBefore -
        (process_payment_auth reqEx "0xD" 1000 "ff").validAfter = reqEx.maxTimeoutSeconds) := by
  decide

/-- C1 (amended): for every requested timeout `t ≥ 1`, the signed
authorization has `validAfter = 0` and `validBefore = issuance time + t`, so
`validBefore - validAfter` equals issuance time plus `t` (it equals `t` alone
only when the issuance clock reads 0), and the window is non-degenerate:
`validAfter < validBefore`. -/
theorem c1_amended (req : PaymentRequirements) (addr : String) (now : Nat) (nonceHex : String)
    (h : 1 ≤ req.maxTimeoutSeconds) :
    (process_payment_auth req addr now nonceHex).validAfter = 0 ∧
    (process_payment_auth req addr now nonceHex).validBefore = now + req.maxTimeoutSeconds ∧
    (process_payment_auth req addr now nonceHex).validBefore -
      (process_payment_auth req addr now nonceHex).validAfter = now + req.maxTimeoutSeconds ∧
    (process_payment_auth req addr now nonceHex).validAfter <
      (process_payment_auth req addr now nonceHex).validBefore := by
  refine ⟨rfl, rfl, rfl, ?_⟩
  simp only [process_payment_auth]
  omega

/-- C1 witness: the amended statement instantiated at timeout 5, issuance
time 1000. -/
theorem c1_witness :
    1 ≤ reqEx.maxTimeoutSeconds ∧
    ((process_payment_auth reqEx "0xD" 1000 "ff").validAfter = 0 ∧
     (process_payment_auth reqEx "0xD" 1000 "ff").validBefore = 1000 + reqEx.maxTimeoutSeconds ∧
     (process_payment_auth reqEx "0xD" 1000 "ff").validBefore -
       (process_payment_auth reqEx "0xD" 1000 "ff").validAfter = 1000 + reqEx.maxTimeoutSeconds ∧
     (process_payment_auth reqEx "0xD" 1000 "ff").validAfter <
       (process_payment_auth reqEx "0xD" 1000 "ff").validBefore) :=
  ⟨by decide, c1_amended reqEx "0xD" 1000 "ff" (by decide)⟩

/-- C3 counterexample: with no minimum amount, `check_approval` reports an
allowance of exactly 0 as approved (`allowance >= 0` is always true), so
"approved iff allowance strictly greater than 0" fails at allowance 0. -/
theorem c3_counterexample :
    ¬ (((check_approval 0 0).1 = true) ↔ 0 < (check_approval 0 0).2) := by
  decide

/-- C3 (amended): when `checkAllowance` is called with no minimum amount, it
reports approved for every live allowance, including an allowance of exactly
0 — the comparison is `allowance >= 0`, not `allowance > 0` — and returns the
allowance unchanged; `B402.check_approval` inherits this. -/
theorem c3_amended (allowance : Nat) :
    check_approval allowance 0 = (true, allowance) ∧
    B402.check_approval (some "0xkey") NetworkT.mainnet "USDT" (Except.ok allowance) =
      Except.ok (true, allowance) := by
  constructor
  · simp [check_approval]
  · have hk : pyFalsy (some "0xkey") = false := rfl
    simp [B402.check_approval, hk, TOKENS, approvalCheck, check_approval]

/-- C5 (code bug evaluation): a transport-level failure on the settle call
(HTTP 503 after a valid verify) is returned as an ordinary
failure-shaped `PaymentResult` — `success = false` with only a message — the
same shape as any plain failure; `PaymentResult` has no distinct
"unknown outcome" condition at all, even though the settle request was
issued and the relay may have been committed. -/
theorem c5_settle_transport_eval :
    (B402.pay envSettle503 "1" "USDT" "0xR" NetworkT.mainnet 3600 true).result =
      failResult (some "Settle request failed: HTTP 503 - gateway timeout")
        "0xME" "0xR" "1" "USDT" ∧
    (B402.pay envSettle503 "1" "USDT" "0xR" NetworkT.mainnet 3600 true).events =
      [Ev.verifyCall VOut.valid, Ev.settleCall] := by
  exact ⟨by decide, by decide⟩

/-- C7 (code bug evaluation): the value placed in the Authorization is
`int(float(amount) * 10**18)` computed in binary64 floating point, which for
the 18-decimal-representable amount "1.1" yields 1100000000000000128 instead
of `floor(1.1 * 10^18) = 1100000000000000000`; the example given by the claim,
"0.01" does map to 10000000000000000, which reads back as exactly 1/100. -/
theorem c7_float_conversion_eval :
    pyAmountWei "1.1" = some 1100000000000000128 ∧
    (parseDec "1.1").map (fun a => floorP (pmul a ⟨10 ^ 18, 1⟩)) = some 1100000000000000000 ∧
    ((B402.pay baseEnv "1.1" "USDT" "0xR" NetworkT.mainnet 3600 true).auth).map
      Authorization.value = some 1100000000000000128 ∧
    pyAmountWei "0.01" = some 10000000000000000 ∧
    (parseDec "0.01").map (fun a => ratEqB a ⟨10000000000000000, 10 ^ 18⟩) = some true := by
  refine ⟨by decide, by decide, by decide, by decide, by decide⟩


/-! ### Characterization lemmas for `B402.pay`, shared by several claims -/

/-- Branch-by-branch facts about the verify/settle stage: the action list is
passed through; success implies no error and failure implies an error; a
settle event only ever follows a valid verify; a transport-failed verify or
settle never yields success. -/
theorem payAfterApproval_spec (env : Env) (amount token recipient tokenAddress : String)
    (network : NetworkT) (t w : Nat) (addr : String) (acts : List ChainAction) :
    (payAfterApproval env amount token recipient tokenAddress network t w addr acts).actions = acts ∧
    ((payAfterApproval env amount token recipient tokenAddress network t w addr acts).result.success = true →
      (payAfterApproval env amount token recipient tokenAddress network t w addr acts).result.error = none) ∧
    ((payAfterApproval env amount token recipient tokenAddress network t w addr acts).result.success = false →
      ((payAfterApproval env amount token recipient tokenAddress network t w addr acts).result.error).isSome = true) ∧
    (Ev.settleCall ∈ (payAfterApproval env amount token recipient tokenAddress network t w addr acts).events →
      (payAfterApproval env amount token recipient tokenAddress network t w addr acts).events =
        [Ev.verifyCall VOut.valid, Ev.settleCall]) ∧
    ((∃ e, env.verify = Except.error e) →
      (payAfterApproval env amount token recipient tokenAddress network t w addr acts).result.success = false) ∧
    ((∃ e, env.settle = Except.error e) →
      (payAfterApproval env amount token recipient tokenAddress network t w addr acts).result.success = false) := by
  unfold payAfterApproval
  cases hver : env.verify with
  | error e => simp [hver, failResult]
  | ok vr =>
    simp only [hver]
    split
    · simp [failResult]
    · cases hbody : vr.body with
      | error e => simp [hbody, failResult]
      | ok vd =>
        simp only [hbody]
        split
        · simp [failResult]
        · cases hstl : env.settle with
          | error e => simp [hstl, failResult]
          | ok sr =>
            simp only [hstl]
            split
            · simp [failResult]
            · cases hsb : sr.body with
              | error e => simp [hsb, failResult]
              | ok sd =>
                simp only [hsb]
                cases hs : sd.success <;> simp [hs]

/-- Branch-by-branch facts about the whole of `B402.pay`: success implies no
error an failure implies an error; settle only after a valid verify; and on
every failure-shaped input the run fails. -/
theorem B402_pay_spec (env : Env) (amount token recipient : String) (network : NetworkT)
    (t : Nat) (auto : Bool) :
    ((B402.pay env amount token recipient network t auto).result.success = true →
      (B402.pay env amount token recipient network t auto).result.error = none) ∧
    ((B402.pay env amount token recipient network t auto).result.success = false →
      ((B402.pay env amount token recipient network t auto).result.error).isSome = true) ∧
    (Ev.settleCall ∈ (B402.pay env amount token recipient network t auto).events →
      (B402.pay env amount token recipient network t auto).events =
        [Ev.verifyCall VOut.valid, Ev.settleCall]) ∧
    (failureInput env network token amount →
      (B402.pay env amount token recipient network t auto).result.success = false) := by
  unfold B402.pay
  by_cases hpk : pyFalsy env.privateKey = true
  · simp [hpk, failResult]
  · simp only [hpk, if_false, Bool.false_eq_true]
    cases hacct : env.accountAddress with
    | error e => simp [failResult, failureInput, hpk, hacct]
    | ok addr =>
      cases htok : TOKENS network token with
      | none => simp [failResult, failureInput, hpk, hacct, htok]
      | some ta =>
        cases hq : parseDec amount with
        | none => simp [failResult, failureInput, hpk, hacct, htok, hq]
        | some q =>
          cases halw : env.allowanceRead with
          | error e => simp [failResult, failureInput, hpk, hacct, htok, hq, halw]
          | ok allowance =>
            simp only
            by_cases hle : pyWeiOfRat q ≤ allowance
            · simp only [if_pos hle]
              obtain ⟨-, h1, h2, h3, h4, h5⟩ :=
                payAfterApproval_spec env amount token recipient ta network t (pyWeiOfRat q) addr []
              refine ⟨h1, h2, h3, ?_⟩
              intro hf
              rcases hf with hf | ⟨e, hf⟩ | hf | hf | ⟨e, hf⟩ | hf | hf
              · exact absurd hf hpk
              · rw [hf] at hacct; exact Except.noConfusion hacct
              · rw [hf] at htok; exact Option.noConfusion htok
              · rw [hf] at hq; exact Option.noConfusion hq
              · rw [hf] at halw; exact Except.noConfusion halw
              · exact h4 hf
              · exact h5 hf
            · simp only [if_neg hle]
              by_cases hauto : auto = false
              · simp [hauto, failResult]
              · simp only [hauto, if_false, Bool.false_eq_true]
                cases happ : env.approveTx with
                | error e => simp [failResult, failureInput]
                | ok tx =>
                  simp only
                  obtain ⟨-, h1, h2, h3, h4, h5⟩ :=
                    payAfterApproval_spec env amount token recipient ta network t (pyWeiOfRat q) addr
                      [ChainAction.approve (max (pyWeiOfRat q) (10000 * 10 ^ 18))]
                  refine ⟨h1, h2, h3, ?_⟩
                  intro hf
                  rcases hf with hf | ⟨e, hf⟩ | hf | hf | ⟨e, hf⟩ | hf | hf
                  · exact absurd hf hpk
                  · rw [hf] at hacct; exact Except.noConfusion hacct
                  · rw [hf] at htok; exact Option.noConfusion htok
                  · rw [hf] at hq; exact Option.noConfusion hq
                  · rw [hf] at halw; exact Except.noConfusion halw
                  · exact h4 hf
                  · exact h5 hf

/-- C2 counterexample: when the settle response of the facilitator reports
`success: true` without a `transaction` field, `pay` returns a
`PaymentResult` with `success = true` and `tx_hash = none` — so
"success implies tx_hash present" fails. -/
theorem c2_counterexample :
    (B402.pay envSettleNoTx "0.01" "USDT" "0xR" NetworkT.mainnet 3600 true).result.success = true ∧
    (B402.pay envSettleNoTx "0.01" "USDT" "0xR" NetworkT.mainnet 3600 true).result.tx_hash = none := by
  exact ⟨by decide, by decide⟩

/-- C2 (amended): for every `PaymentResult` returned by `pay`, if `success`
is true then `error` is absent, and if `success` is false then `error` is
present; `tx_hash` on success is whatever `transaction` field the
facilitator reported and may be absent. -/
theorem c2_amended (env : Env) (amount token recipient : String) (network : NetworkT)
    (t : Nat) (auto : Bool) :
    ((B402.pay env amount token recipient network t auto).result.success = true →
      (B402.pay env amount token recipient network t auto).result.error = none) ∧
    ((B402.pay env amount token recipient network t auto).result.success = false →
      ((B402.pay env amount token recipient network t auto).result.error).isSome = true) :=
  ⟨(B402_pay_spec env amount token recipient network t auto).1,
   (B402_pay_spec env amount token recipient network t auto).2.1⟩

/-- C2 witness: on the happy-path environment the amended implication fires
with a successful result and an absent error. -/
theorem c2_witness :
    (B402.pay baseEnv "0.01" "USDT" "0xR" NetworkT.mainnet 3600 true).result.error = none :=
  (c2_amended baseEnv "0.01" "USDT" "0xR" NetworkT.mainnet 3600 true).1 (by decide)

/-- C6: in every execution of `pay`, a settle request is issued only when the
immediately preceding verify for the same envelope returned Valid: whenever
the event trace contains a settle call, the trace is exactly
`[verify(valid), settle]` — settle never follows an invalid or
transport-failed verify, and verify always precedes settle. -/
theorem c6_verify_before_settle (env : Env) (amount token recipient : String)
    (network : NetworkT) (t : Nat) (auto : Bool)
    (h : Ev.settleCall ∈ (B402.pay env amount token recipient network t auto).events) :
    (B402.pay env amount token recipient network t auto).events =
      [Ev.verifyCall VOut.valid, Ev.settleCall] :=
  (B402_pay_spec env amount token recipient network t auto).2.2.1 h

/-- C6 witness: a run that reaches settle, with trace `[verify(valid), settle]`. -/
theorem c6_witness :
    Ev.settleCall ∈ (B402.pay baseEnv "0.01" "USDT" "0xR" NetworkT.mainnet 3600 true).events ∧
    (B402.pay baseEnv "0.01" "USDT" "0xR" NetworkT.mainnet 3600 true).events =
      [Ev.verifyCall VOut.valid, Ev.settleCall] :=
  ⟨by decide, c6_verify_before_settle baseEnv "0.01" "USDT" "0xR" NetworkT.mainnet 3600 true (by decide)⟩

/-- C9: the orchestrator is total — every run returns a `PaymentResult`
(modelled by `B402.pay` being a total function, the outer `except` of
`client.py:217` baked into its branches) — every failed run carries an error
message, and every failure-shaped input (missing credential, malformed key,
unsupported token, malformed amount, or a raising collaborator) produces a
failed run with an error message rather than an escaping exception. -/
theorem c9_orchestrator_no_escape (env : Env) (amount token recipient : String)
    (network : NetworkT) (t : Nat) (auto : Bool) :
    ((B402.pay env amount token recipient network t auto).result.success = false →
      ((B402.pay env amount token recipient network t auto).result.error).isSome = true) ∧
    (failureInput env network token amount →
      (B402.pay env amount token recipient network t auto).result.success = false ∧
      ((B402.pay env amount token recipient network t auto).result.error).isSome = true) :=
  ⟨(B402_pay_spec env amount token recipient network t auto).2.1,
   fun hf =>
     ⟨(B402_pay_spec env amount token recipient network t auto).2.2.2 hf,
      (B402_pay_spec env amount token recipient network t auto).2.1
        ((B402_pay_spec env amount token recipient network t auto).2.2.2 hf)⟩⟩

/-- C9 witness: with the credential missing, the run fails with an error
message present. -/
theorem c9_witness :
    (B402.pay envNoKey "0.01" "USDT" "0xR" NetworkT.mainnet 3600 true).result.success = false ∧
    ((B402.pay envNoKey "0.01" "USDT" "0xR" NetworkT.mainnet 3600 true).result.error).isSome = true :=
  (c9_orchestrator_no_escape envNoKey "0.01" "USDT" "0xR" NetworkT.mainnet 3600 true).2
    (Or.inl (by decide))

/-- C4 counterexample: with zero allowance, auto-approval enabled, approval
transaction id `0xapproval` and a settle reporting transaction `0xsettle`,
the approval is issued for `max(amount, 10000 * 10^18)` but `pay` does not
return the resulting allowance together with the approval transaction id:
the only transaction field of the returned result carries the settle
transaction, not the approval one, and no allowance is returned. -/
theorem c4_counterexample :
    (B402.pay envZeroAllowance "1" "USDT" "0xR" NetworkT.mainnet 3600 true).actions =
      [ChainAction.approve (10000 * 10 ^ 18)] ∧
    (B402.pay envZeroAllowance "1" "USDT" "0xR" NetworkT.mainnet 3600 true).result.tx_hash =
      some "0xsettle" ∧
    (B402.pay envZeroAllowance "1" "USDT" "0xR" NetworkT.mainnet 3600 true).result.tx_hash ≠
      some "0xapproval" := by
  exact ⟨by decide, by decide, by decide⟩

/-- C4 (amended): when the allowance is insufficient and auto-approval is
enabled, `pay` issues exactly one approval transaction, for exactly
`max(requiredAmount, defaultCap)` with `defaultCap = 10000 * 10^18` (the
`approve_token` default, never unlimited); `pay` then proceeds with the
payment rather than returning the resulting allowance and the approval
transaction id. -/
theorem c4_amended (env : Env) (amount token recipient addr tokenAddress tx : String)
    (network : NetworkT) (t : Nat) (q : PRat) (allowance : Nat)
    (hpk : pyFalsy env.privateKey = false)
    (hacct : env.accountAddress = Except.ok addr)
    (htok : TOKENS network token = some tokenAddress)
    (hparse : parseDec amount = some q)
    (hallow : env.allowanceRead = Except.ok allowance)
    (hlt : allowance < pyWeiOfRat q)
    (htx : env.approveTx = Except.ok tx) :
    (B402.pay env amount token recipient network t true).actions =
      [ChainAction.approve (max (pyWeiOfRat q) (10000 * 10 ^ 18))] ∧
    approve_token_amount none = 10000 * 10 ^ 18 := by
  constructor
  · have hs := (payAfterApproval_spec env amount token recipient tokenAddress network t
      (pyWeiOfRat q) addr [ChainAction.approve (max (pyWeiOfRat q) (10000 * 10 ^ 18))]).1
    unfold B402.pay
    simp only [hpk, Bool.false_eq_true, if_false, hacct, htok, hparse, hallow, htx]
    rw [if_neg (Nat.not_le.mpr hlt)]
    simpa using hs
  · rfl

/-- C4 witness: the amended statement instantiated at zero allowance and
amount "1" (one token, 10^18 base units, below the 10^22 cap). -/
theorem c4_witness :
    parseDec "1" = some ⟨1, 1⟩ ∧ (0 : Nat) < pyWeiOfRat ⟨1, 1⟩ ∧
    (B402.pay envZeroAllowance "1" "USDT" "0xR" NetworkT.mainnet 3600 true).actions =
      [ChainAction.approve (max (pyWeiOfRat ⟨1, 1⟩) (10000 * 10 ^ 18))] :=
  ⟨by decide, by decide,
   (c4_amended envZeroAllowance "1" "USDT" "0xR" "0xME"
      "0x55d398326f99059fF775485246999027B3197955" "0xapproval" NetworkT.mainnet 3600
      ⟨1, 1⟩ 0 (by decide) rfl (by decide) (by decide) rfl (by decide) rfl).1⟩

/-- C8: with the allowance below the required base-unit amount and
auto-approve disabled, `pay` returns a terminal failure whose error message
renders both the current and the required allowance (each as Python formats
`x / 10**18` with `.4f`), performing no on-chain mutation and issuing no
facilitator call. -/
theorem c8_insufficient_no_autoapprove (env : Env) (amount token recipient addr tokenAddress : String)
    (network : NetworkT) (t : Nat) (q : PRat) (allowance : Nat)
    (hpk : pyFalsy env.privateKey = false)
    (hacct : env.accountAddress = Except.ok addr)
    (htok : TOKENS network token = some tokenAddress)
    (hparse : parseDec amount = some q)
    (hallow : env.allowanceRead = Except.ok allowance)
    (hlt : allowance < pyWeiOfRat q) :
    (B402.pay env amount token recipient network t false).result =
      failResult (some (insufficientMsg allowance (pyWeiOfRat q) token)) addr recipient amount token ∧
    insufficientMsg allowance (pyWeiOfRat q) token =
      "Insufficient allowance. Have: " ++ pyFmt4 (pyTrueDiv allowance) ++ " " ++ token ++
      ", Need: " ++ pyFmt4 (pyTrueDiv (pyWeiOfRat q)) ++ " " ++ token ++
      ". Run: b402.setup(" ++ sglq ++ token ++ sglq ++ ") or pay(..., auto_approve=True)" ∧
    (B402.pay env amount token recipient network t false).actions = [] ∧
    (B402.pay env amount token recipient network t false).events = [] := by
  refine ⟨?_, rfl, ?_, ?_⟩
  all_goals
    unfold B402.pay
    simp only [hpk, Bool.false_eq_true, if_false, hacct, htok, hparse, hallow]
    rw [if_neg (Nat.not_le.mpr hlt)]
    simp

/-- C8 witness: allowance 0, amount "1", auto-approve disabled — the failure
message renders "Have: 0.0000" and "Need: 1.0000". -/
theorem c8_witness :
    parseDec "1" = some ⟨1, 1⟩ ∧ (0 : Nat) < pyWeiOfRat ⟨1, 1⟩ ∧
    (B402.pay envZeroAllowance "1" "USDT" "0xR" NetworkT.mainnet 3600 false).result =
      failResult (some (insufficientMsg 0 (pyWeiOfRat ⟨1, 1⟩) "USDT")) "0xME" "0xR" "1" "USDT" ∧
    insufficientMsg 0 (pyWeiOfRat ⟨1, 1⟩) "USDT" =
      "Insufficient allowance. Have: 0.0000 USDT, Need: 1.0000 USDT. Run: b402.setup(" ++
        sglq ++ "USDT" ++ sglq ++ ") or pay(..., auto_approve=True)" :=
  ⟨by decide, by decide,
   (c8_insufficient_no_autoapprove envZeroAllowance "1" "USDT" "0xR" "0xME"
      "0x55d398326f99059fF775485246999027B3197955" NetworkT.mainnet 3600
      ⟨1, 1⟩ 0 (by decide) rfl (by decide) (by decide) rfl (by decide)).1,
   by decide⟩

/-- C10: `B402.check_approval` and `B402.setup` raise `ValueError`
(modelled as `Except.error`) when the PRIVATE_KEY credential is unset or the
token is not configured on the active network, while `B402.pay` in the same
situations returns a structured failure result (`success = false` with the
same message) instead of raising. -/
theorem c10_value_error_contrast (env : Env) (network : NetworkT)
    (token amount recipient addr : String) (t : Nat) (auto : Bool) :
    (pyFalsy env.privateKey = true →
      B402.check_approval env.privateKey network token env.allowanceRead = Except.error noKeyMsg ∧
      B402.setup env.privateKey network token env.allowanceRead env.approveTx auto =
        Except.error noKeyMsg ∧
      (B402.pay env amount token recipient network t auto).result.success = false ∧
      (B402.pay env amount token recipient network t auto).result.error = some noKeyMsg) ∧
    (pyFalsy env.privateKey = false → TOKENS network token = none →
      env.accountAddress = Except.ok addr →
      B402.check_approval env.privateKey network token env.allowanceRead =
        Except.error (unsupportedMsg token network) ∧
      B402.setup env.privateKey network token env.allowanceRead env.approveTx auto =
        Except.error (unsupportedMsg token network) ∧
      (B402.pay env amount token recipient network t auto).result.success = false ∧
      (B402.pay env amount token recipient network t auto).result.error =
        some (unsupportedMsg token network)) := by
  constructor
  · intro hk
    unfold B402.pay B402.check_approval B402.setup
    simp [hk, failResult]
  · intro hk htok hacct
    unfold B402.pay B402.check_approval B402.setup
    simp [hk, htok, hacct, failResult]

/-- C10 witness: the missing-credential case on mainnet/USDT and the
unsupported-token case USD1-on-testnet, both raising from
`check_approval`/`setup` while `pay` returns a structured failure. -/
theorem c10_witness :
    B402.check_approval envNoKey.privateKey NetworkT.mainnet "USDT" envNoKey.allowanceRead =
      Except.error noKeyMsg ∧
    (B402.pay envNoKey "1" "USDT" "0xR" NetworkT.mainnet 3600 true).result.error = some noKeyMsg ∧
    B402.setup baseEnv.privateKey NetworkT.testnet "USD1" baseEnv.allowanceRead baseEnv.approveTx
      true = Except.error (unsupportedMsg "USD1" NetworkT.testnet) ∧
    (B402.pay baseEnv "1" "USD1" "0xR" NetworkT.testnet 3600 true).result.error =
      some (unsupportedMsg "USD1" NetworkT.testnet) :=
  ⟨((c10_value_error_contrast envNoKey NetworkT.mainnet "USDT" "1" "0xR" "0xME" 3600 true).1
      (by decide)).1,
   (((c10_value_error_contrast envNoKey NetworkT.mainnet "USDT" "1" "0xR" "0xME" 3600 true).1
      (by decide)).2.2).2,
   (((c10_value_error_contrast baseEnv NetworkT.testnet "USD1" "1" "0xR" "0xME" 3600 true).2
      (by decide) (by decide) rfl).2).1,
   ((((c10_value_error_contrast baseEnv NetworkT.testnet "USD1" "1" "0xR" "0xME" 3600 true).2
      (by decide) (by decide) rfl).2).2).2⟩
